import Mathlib

/-
Shallow embedding of src/app.py (ExportScore): the prediction-session state
machine and scoring pipeline. Numeric spreadsheet cells are modelled as
Option ℚ (none = empty cell / absent column, i.e. pandas NaN); the trained
classifier and the fitted scaler are opaque functions on rational feature
vectors. Each Streamlit event handler becomes a pure function on an explicit
SessionState, and the reachable states are generated by a step relation.
-/

namespace ExportScore

/-- The trained classifier, as used at line 191 of app.py:
`model.predict_proba(X)[0][1]`, i.e. a map from a (scaled) feature vector to
the probability of the positive class. -/
abbrev Model := List ℚ → ℚ

/-- The fitted scaling transform (`scaler.transform`, line 190). -/
abbrev Scaler := List ℚ → List ℚ

/-- One row of the opportunities table. `produit` and `code_sh` are the
identifier columns 'Produit' and 'CODE SH'; the six numeric indicator columns
are optional: `none` models an empty cell or an absent column, which
app.py treats identically at line 168 (`feature not in prediction_df.columns
or pd.isnull(...)`). -/
structure Record where
  produit : String
  code_sh : String
  croissance_maroc : Option ℚ
  acr : Option ℚ
  pci : Option ℚ
  croissance_monde : Option ℚ
  taille_marche : Option ℚ
  alignement : Option ℚ
deriving DecidableEq

/-- A parsed spreadsheet: its column list (used by the load-time schema check
at line 27) and its rows. -/
structure Frame where
  columns : List String
  records : List Record
deriving DecidableEq

/-- FEATURES_NAMES from app.py lines 49-56: the fixed feature order. -/
def FEATURES_NAMES : List String :=
  ["Croissance Maroc (% p.a.)",
   "ACR",
   "PCI",
   "Croissance Monde (% p.a.)",
   "Taille Marche (millier USD)",
   "Alignement stratégique"]

/-- The five non-alignment indicator columns, in the fixed feature order. -/
def NON_ALIGNMENT_FEATURES : List String :=
  ["Croissance Maroc (% p.a.)",
   "ACR",
   "PCI",
   "Croissance Monde (% p.a.)",
   "Taille Marche (millier USD)"]

/-- Cell access `row[feature]` for the six indicator columns. -/
def Record.get (r : Record) (f : String) : Option ℚ :=
  if f = "Croissance Maroc (% p.a.)" then r.croissance_maroc
  else if f = "ACR" then r.acr
  else if f = "PCI" then r.pci
  else if f = "Croissance Monde (% p.a.)" then r.croissance_monde
  else if f = "Taille Marche (millier USD)" then r.taille_marche
  else if f = "Alignement stratégique" then r.alignement
  else none

/-- Line 163: `selected_row['Alignement stratégique'] = st.session_state.strategic_alignment`. -/
def set_alignment (r : Record) (a : ℚ) : Record :=
  { r with alignement := some a }

/-- Lines 166-170: collect the features that are absent or null for the
selected row, in FEATURES_NAMES order, skipping 'Alignement stratégique'. -/
def missing_features (r : Record) : List String :=
  FEATURES_NAMES.filter
    (fun f => (r.get f).isNone && !(f = "Alignement stratégique"))

/-- Lines 162-191 as one record-level contract: override the alignment cell
with the session flag, report the missing non-alignment features if any,
otherwise extract the feature vector `prediction_df[FEATURES_NAMES]`. -/
def assemble (r : Record) (a : ℚ) : Except (List String) (List ℚ) :=
  let rOver := set_alignment r a
  let missing := missing_features rOver
  if missing.isEmpty then
    Except.ok (FEATURES_NAMES.map (fun f => (rOver.get f).getD 0))
  else
    Except.error missing

/-- Lines 189-191: the prediction is computed only when no feature is
missing; the vector is passed through the scaler, then the classifier. -/
def compute_result (mdl : Model) (scl : Scaler) (r : Record) (a : ℚ) :
    Except (List String) ℚ :=
  match assemble r a with
  | Except.error m => Except.error m
  | Except.ok v => Except.ok (mdl (scl v))

/-- Line 203-204: the rendered verdict next to the gauge. -/
def displayed_verdict (p : ℚ) : String :=
  if p > 1/2 then "✔ POTENTIEL ÉLEVÉ" else "❌ POTENTIEL FAIBLE"

/-- One row of the accumulated report (line 206). The score is kept as the
raw probability; the percent formatting of 'SCORE FINAL' is presentation. -/
structure ReportItem where
  produit : String
  code_sh : String
  alignement : String
  score_final : ℚ
  verdict : String
deriving DecidableEq

/-- Line 206: the report entry built when 'Ajouter au Rapport' is clicked. -/
def mk_report_item (name code : String) (align p : ℚ) : ReportItem :=
  { produit := name
    code_sh := code
    alignement := if align = 1 then "OUI" else "NON"
    score_final := p
    verdict := if p > 1/2 then "ÉLEVÉ" else "FAIBLE" }

/-- The Streamlit session state, lines 39-46 of app.py. `page` is the session
phase string ('config' or 'dashboard'). -/
structure SessionState where
  page : String
  model : Option Model
  scaler : Option Scaler
  df_opportunities : Option Frame
  selected_product_name : Option String
  strategic_alignment : Option ℚ
  report : List ReportItem
  show_manual_form : Bool

/-- The initial session state (lines 39-46). -/
def init_state : SessionState :=
  { page := "config"
    model := none
    scaler := none
    df_opportunities := none
    selected_product_name := none
    strategic_alignment := none
    report := []
    show_manual_form := false }

/-- The outcome of the three external loads performed by `train_and_load`:
`none` models the raised exception (FileNotFoundError for the two joblib
artifacts, any parse error for `pd.read_excel`). -/
structure LoadEnv where
  modelFile : Option Model
  scalerFile : Option Scaler
  predictFile : Option Frame

/-- Lines 21-36 of app.py. The three session fields are assigned one after
the other inside the try block, so an exception leaves the earlier
assignments in place; the identifier-column check runs only after all three
assignments and returns False without undoing them. -/
def train_and_load (env : LoadEnv) (s : SessionState) : SessionState × Bool :=
  match env.modelFile with
  | none => (s, false)
  | some m =>
    let s1 := { s with model := some m }
    match env.scalerFile with
    | none => (s1, false)
    | some sc =>
      let s2 := { s1 with scaler := some sc }
      match env.predictFile with
      | none => (s2, false)
      | some fr =>
        let s3 := { s2 with df_opportunities := some fr }
        if "Produit" ∈ fr.columns ∧ "CODE SH" ∈ fr.columns then (s3, true)
        else (s3, false)

/-- A configuration-submit event: whether each uploader holds a file, and
the outcome of the loads that would run. -/
structure ConfigEvent where
  train_file : Bool
  predict_file : Bool
  env : LoadEnv

/-- Lines 69-79: the 'Lancer l'Analyse' handler. Both files must be present;
`page` is set to 'dashboard' only when `train_and_load` reports success. -/
def config_submit (s : SessionState) (ev : ConfigEvent) : SessionState :=
  if ev.train_file && ev.predict_file then
    let r := train_and_load ev.env s
    if r.2 then { r.1 with page := "dashboard" } else r.1
  else s

/-- The values typed into the manual-opportunity form (lines 98-105). Each
numeric input defaults to 0; `none` models a field the user left untouched,
which the widget submits as its default 0. -/
structure ManualInput where
  nom : String
  code_sh : String
  croissance_maroc : Option ℚ
  acr : Option ℚ
  pci : Option ℚ
  croissance_monde : Option ℚ
  taille_marche : Option ℚ
  alignement : ℚ

/-- Lines 108-113: the one-row DataFrame built from the manual form. Every
numeric cell is populated (with the widget default 0 when untouched). -/
def mk_manual_record (inp : ManualInput) : Record :=
  { produit := inp.nom
    code_sh := inp.code_sh
    croissance_maroc := some (inp.croissance_maroc.getD 0)
    acr := some (inp.acr.getD 0)
    pci := some (inp.pci.getD 0)
    croissance_monde := some (inp.croissance_monde.getD 0)
    taille_marche := some (inp.taille_marche.getD 0)
    alignement := some inp.alignement }

/-- Pandas fillna(0) applied to one row: every empty numeric cell becomes 0. -/
def fillna0 (r : Record) : Record :=
  { r with
    croissance_maroc := some (r.croissance_maroc.getD 0)
    acr := some (r.acr.getD 0)
    pci := some (r.pci.getD 0)
    croissance_monde := some (r.croissance_monde.getD 0)
    taille_marche := some (r.taille_marche.getD 0)
    alignement := some (r.alignement.getD 0) }

/-- Columns of the one-row manual DataFrame (lines 108-113). -/
def manual_columns : List String := ["Produit", "CODE SH"] ++ FEATURES_NAMES

/-- Lines 107-118: the manual-form submit handler.
`pd.concat([new_product_data, df], ignore_index=True).fillna(0)` puts the new
row first and fills every empty cell of the whole concatenated frame with 0;
then the selection, the alignment flag and the form visibility are set. The
column list of the concatenated frame is the union of both frames' columns;
only membership in it ever matters, so it is modelled as concatenation. The
handler exists only on the dashboard page (inside the elif at line 84). -/
def manual_submit (s : SessionState) (inp : ManualInput) : SessionState :=
  if s.page = "dashboard" then
    { s with
      df_opportunities := s.df_opportunities.map (fun fr =>
        { columns := manual_columns ++ fr.columns
          records := (mk_manual_record inp :: fr.records).map fillna0 })
      selected_product_name := some inp.nom
      strategic_alignment := some inp.alignement
      show_manual_form := false }
  else s

/-- Line 154: `df[df['Produit'] == name].iloc[0]` — the first row whose
'Produit' cell equals the selected name. -/
def selected_row (records : List Record) (name : String) : Option Record :=
  records.find? (fun r => r.produit == name)

/-- Lines 153-154 in context: the record the dashboard body scores and
displays, when a product is selected and present in the dataset. -/
def dashboard_selected (s : SessionState) : Option Record :=
  match s.df_opportunities, s.selected_product_name with
  | some fr, some name => selected_row fr.records name
  | _, _ => none

/-- Writing one supplied value into one cell of a row
(`df.loc[idx, feature] = value`, line 184). -/
def set_field (r : Record) (f : String) (v : ℚ) : Record :=
  if f = "Croissance Maroc (% p.a.)" then { r with croissance_maroc := some v }
  else if f = "ACR" then { r with acr := some v }
  else if f = "PCI" then { r with pci := some v }
  else if f = "Croissance Monde (% p.a.)" then { r with croissance_monde := some v }
  else if f = "Taille Marche (millier USD)" then { r with taille_marche := some v }
  else if f = "Alignement stratégique" then { r with alignement := some v }
  else r

/-- Applying every (feature, value) pair of `new_values` to one row
(lines 183-184). -/
def apply_updates (r : Record) (vals : List (String × ℚ)) : Record :=
  vals.foldl (fun acc fv => set_field acc fv.1 fv.2) r

/-- Lines 181-184: `product_index` is the index of EVERY row whose 'Produit'
equals the selected name, and `df.loc[product_index, feature] = value`
writes the value into all of them; non-matching rows are untouched. -/
def update_matching (records : List Record) (name : String)
    (vals : List (String × ℚ)) : List Record :=
  records.map (fun r => if r.produit == name then apply_updates r vals else r)

/-- Lines 176-186: the missing-data form submit handler. It lives in the
main body, whose guard (lines 150-153) requires only a non-null dataset and
a selected name present in it; the stored dataset itself is mutated. -/
def missing_submit (s : SessionState) (vals : List (String × ℚ)) : SessionState :=
  match s.df_opportunities, s.selected_product_name with
  | some fr, some name =>
    { s with
      df_opportunities :=
        some ({ fr with records := update_matching fr.records name vals }) }
  | _, _ => s

/-- Lines 205-207: the 'Ajouter au Rapport' handler. It runs only in the
no-missing-features branch, with a selected row and a chosen alignment, and
appends one entry built from the computed probability. -/
def add_report (s : SessionState) : SessionState :=
  match s.df_opportunities, s.selected_product_name, s.strategic_alignment,
        s.model, s.scaler with
  | some fr, some name, some a, some mdl, some scl =>
    match selected_row fr.records name with
    | some r =>
      match compute_result mdl scl r a with
      | Except.ok p =>
        { s with report := s.report ++ [mk_report_item name r.code_sh a p] }
      | Except.error _ => s
    | none => s
  | _, _, _, _, _ => s

/-- The external events the session reacts to. `selectProduct` models the
sidebar selectbox (line 127) yielding some name from the product list, or
none when the filtered list is empty; `setAlign` models the two alignment
buttons (lines 134-135). -/
inductive Event where
  | configSubmit (ev : ConfigEvent)
  | resetSession
  | toggleManualForm
  | manualSubmit (inp : ManualInput)
  | selectProduct (name : Option String)
  | setAlign (yes : Bool)
  | missingSubmit (vals : List (String × ℚ))
  | addReport

/-- One re-run of the script in response to one event. Sidebar handlers
exist only on the dashboard page; the config form only on the config page;
the reset button (lines 141-143) deletes every session key, which the
initialisation block then restores to the initial values. -/
def step (s : SessionState) (e : Event) : SessionState :=
  match e with
  | Event.configSubmit ev =>
    if s.page = "config" then config_submit s ev else s
  | Event.resetSession =>
    if s.page = "dashboard" then init_state else s
  | Event.toggleManualForm =>
    if s.page = "dashboard" then
      { s with show_manual_form := !s.show_manual_form } else s
  | Event.manualSubmit inp => manual_submit s inp
  | Event.selectProduct name =>
    if s.page = "dashboard" then
      { s with selected_product_name := name } else s
  | Event.setAlign yes =>
    if s.page = "dashboard" then
      { s with strategic_alignment := some (if yes then 1 else 0) } else s
  | Event.missingSubmit vals => missing_submit s vals
  | Event.addReport => add_report s

/-- The session states reachable from the initial state. -/
inductive Reachable : SessionState → Prop where
  | init : Reachable init_state
  | step {s : SessionState} (e : Event) : Reachable s → Reachable (step s e)

/-! Concrete fixtures used by witnesses and counterexamples. -/

/-- A concrete classifier: constant probability 7/10. -/
def model0 : Model := fun _ => 7/10

/-- A concrete scaler: the identity transform. -/
def scaler0 : Scaler := fun v => v

/-- A row with every indicator cell filled. -/
def rec_full : Record :=
  { produit := "Tomates"
    code_sh := "0702"
    croissance_maroc := some 2
    acr := some (3/2)
    pci := some (1/2)
    croissance_monde := some 1
    taille_marche := some 500
    alignement := some 0 }

/-- The same row with the PCI and alignment cells empty, as imported. -/
def rec_missing_pci : Record :=
  { rec_full with pci := none, alignement := none }

/-- A second imported row bearing the same product name. -/
def rec_missing_pci2 : Record :=
  { rec_missing_pci with code_sh := "0703", acr := some 4 }

/-- A prediction file with both identifier columns. -/
def frame_ok : Frame := { columns := manual_columns, records := [rec_full] }

/-- A prediction file lacking the 'CODE SH' column. -/
def frame_no_sh : Frame := { columns := ["Produit"], records := [] }

/-- A load environment where everything succeeds. -/
def env_ok : LoadEnv :=
  { modelFile := some model0, scalerFile := some scaler0
    predictFile := some frame_ok }

/-- A load environment whose prediction file lacks 'CODE SH'. -/
def env_no_sh : LoadEnv :=
  { modelFile := some model0, scalerFile := some scaler0
    predictFile := some frame_no_sh }

/-- A config submit with both files present that loads cleanly. -/
def ev_ok : ConfigEvent := { train_file := true, predict_file := true, env := env_ok }

/-- A config submit whose prediction file lacks 'CODE SH'. -/
def ev_no_sh : ConfigEvent :=
  { train_file := true, predict_file := true, env := env_no_sh }

/-- The frame with no columns and no rows, used as a getD fallback. -/
def empty_frame : Frame := { columns := [], records := [] }

/-- A loaded dataset holding one imported row with an empty PCI cell. -/
def frame_dash0 : Frame :=
  { columns := manual_columns, records := [rec_missing_pci] }

/-- A loaded dataset with two rows both named 'Tomates'. -/
def frame_dash_dup : Frame :=
  { columns := manual_columns, records := [rec_missing_pci, rec_missing_pci2] }

/-- A dashboard session holding one imported row with an empty PCI cell. -/
def s_dash0 : SessionState :=
  { page := "dashboard"
    model := some model0
    scaler := some scaler0
    df_opportunities := some frame_dash0
    selected_product_name := some "Tomates"
    strategic_alignment := some 1
    report := []
    show_manual_form := true }

/-- The same session with two rows named 'Tomates'. -/
def s_dash_dup : SessionState :=
  { s_dash0 with df_opportunities := some frame_dash_dup }

/-- A config event carrying an environment where all three loads yield
values, used to reason about the post-load column validation. -/
def config_event_all_loaded (m : Model) (sc : Scaler) (fr : Frame) : ConfigEvent :=
  { train_file := true
    predict_file := true
    env := { modelFile := some m, scalerFile := some sc, predictFile := some fr } }

/-- A manual-form submission leaving every numeric field untouched. -/
def inp0 : ManualInput :=
  { nom := "Widget X"
    code_sh := "9999"
    croissance_maroc := none
    acr := none
    pci := none
    croissance_monde := none
    taille_marche := none
    alignement := 1 }

/-! Helper lemmas shared by several claims. -/

theorem assemble_ok_of_present (r : Record) (a c1 c2 c3 c4 c5 : ℚ)
    (h1 : r.croissance_maroc = some c1) (h2 : r.acr = some c2)
    (h3 : r.pci = some c3) (h4 : r.croissance_monde = some c4)
    (h5 : r.taille_marche = some c5) :
    assemble r a = Except.ok [c1, c2, c3, c4, c5, a] := by
  simp [assemble, missing_features, FEATURES_NAMES, List.filter, Record.get,
    set_alignment, h1, h2, h3, h4, h5]

theorem missing_features_override (r : Record) (a : ℚ) :
    missing_features (set_alignment r a) =
      NON_ALIGNMENT_FEATURES.filter (fun f => (r.get f).isNone) := by
  simp [missing_features, NON_ALIGNMENT_FEATURES, FEATURES_NAMES, List.filter,
    Record.get, set_alignment]

theorem mem_missing_iff (r : Record) (a : ℚ) (f : String) :
    f ∈ missing_features (set_alignment r a) ↔
      f ∈ NON_ALIGNMENT_FEATURES ∧ r.get f = none := by
  rw [missing_features_override]
  simp [List.mem_filter, Option.isNone_iff_eq_none]

/-- C5: for every selected record missing at least one of the five
non-alignment indicator fields, the check reports exactly the set of absent
non-alignment field names in the fixed feature order, and the scoring call
is not reached: the result is the error, whatever the model and scaler. -/
theorem C5_missing_fields_reported (r : Record) (a : ℚ)
    (h : missing_features (set_alignment r a) ≠ []) :
    assemble r a = Except.error (missing_features (set_alignment r a)) ∧
    missing_features (set_alignment r a) =
      NON_ALIGNMENT_FEATURES.filter (fun f => (r.get f).isNone) ∧
    (∀ f, f ∈ missing_features (set_alignment r a) ↔
      f ∈ NON_ALIGNMENT_FEATURES ∧ r.get f = none) ∧
    (∀ mdl scl, compute_result mdl scl r a =
      Except.error (missing_features (set_alignment r a))) := by
  have hne : (missing_features (set_alignment r a)).isEmpty = false := by
    cases hm : missing_features (set_alignment r a) with
    | nil => exact absurd hm h
    | cons x xs => rfl
  refine ⟨?_, missing_features_override r a, fun f => mem_missing_iff r a f, ?_⟩
  · simp [assemble, hne]
  · intro mdl scl
    simp [compute_result, assemble, hne]

/-- C5 witness: the imported row with an empty PCI cell is reported as
missing exactly ['PCI'] and no probability is produced. -/
theorem C5_witness :
    missing_features (set_alignment rec_missing_pci 1) ≠ [] ∧
    assemble rec_missing_pci 1 = Except.error ["PCI"] := by
  refine ⟨by decide, ?_⟩
  have h := (C5_missing_fields_reported rec_missing_pci 1 (by decide)).1
  simpa using h

/-- C6: for every record with all six indicator fields present and a session
alignment flag equal to 0 or to 1, assembly succeeds and yields the vector
in the fixed order, with the alignment component equal to the session flag,
overriding the value stored on the record. -/
theorem C6_assemble_success_overrides (r : Record) (a c1 c2 c3 c4 c5 al : ℚ)
    (h1 : r.croissance_maroc = some c1) (h2 : r.acr = some c2)
    (h3 : r.pci = some c3) (h4 : r.croissance_monde = some c4)
    (h5 : r.taille_marche = some c5) (h6 : r.alignement = some al)
    (ha : a = 0 ∨ a = 1) :
    assemble r a = Except.ok [c1, c2, c3, c4, c5, a] :=
  assemble_ok_of_present r a c1 c2 c3 c4 c5 h1 h2 h3 h4 h5

/-- C6 witness: the fully populated row, session alignment 1 against a
stored alignment cell of 0: the vector ends in 1. -/
theorem C6_witness :
    rec_full.croissance_maroc = some 2 ∧ rec_full.acr = some (3/2) ∧
    rec_full.pci = some (1/2) ∧ rec_full.croissance_monde = some 1 ∧
    rec_full.taille_marche = some 500 ∧ rec_full.alignement = some 0 ∧
    assemble rec_full 1 = Except.ok [2, 3/2, 1/2, 1, 500, 1] :=
  ⟨rfl, rfl, rfl, rfl, rfl, rfl,
    C6_assemble_success_overrides rec_full 1 2 (3/2) (1/2) 1 500 0
      rfl rfl rfl rfl rfl rfl (Or.inr rfl)⟩

/-- C7: the rendered verdict and the VERDICT field of a report entry built
from probability p carry the HIGH label exactly when p > 1/2; at the
boundary p = 1/2 both carry the LOW label. -/
theorem C7_verdict_threshold (name code : String) (al p : ℚ) :
    (displayed_verdict p = "✔ POTENTIEL ÉLEVÉ" ↔ p > 1/2) ∧
    ((mk_report_item name code al p).verdict = "ÉLEVÉ" ↔ p > 1/2) ∧
    displayed_verdict (1/2) = "❌ POTENTIEL FAIBLE" ∧
    (mk_report_item name code al (1/2)).verdict = "FAIBLE" := by
  refine ⟨?_, ?_, ?_, ?_⟩
  · by_cases h : p > 1/2 <;> simp [displayed_verdict, h]
  · by_cases h : p > 1/2 <;> simp [mk_report_item, h]
  · simp [displayed_verdict]
  · simp [mk_report_item]

theorem fillna0_mk_manual (inp : ManualInput) :
    fillna0 (mk_manual_record inp) = mk_manual_record inp := rfl

theorem manual_submit_records (s : SessionState) (fr : Frame) (inp : ManualInput)
    (hpage : s.page = "dashboard") (hdf : s.df_opportunities = some fr) :
    ((manual_submit s inp).df_opportunities.getD empty_frame).records =
      mk_manual_record inp :: fr.records.map fillna0 := by
  simp [manual_submit, hpage, hdf, fillna0_mk_manual]

/-- C9: after a manual-entry submission (on the dashboard, with a loaded
dataset), the new record sits at position 0 of the dataset, each numeric
field the user left untouched is 0 and no field of the new record is absent,
the selection is the new record's name, the alignment flag is the form
value, and the manual form is closed. -/
theorem C9_manual_merge (s : SessionState) (fr : Frame) (inp : ManualInput)
    (hpage : s.page = "dashboard") (hdf : s.df_opportunities = some fr) :
    ((manual_submit s inp).df_opportunities.getD empty_frame).records[0]? =
      some (mk_manual_record inp) ∧
    (inp.croissance_maroc = none → (mk_manual_record inp).croissance_maroc = some 0) ∧
    (inp.acr = none → (mk_manual_record inp).acr = some 0) ∧
    (inp.pci = none → (mk_manual_record inp).pci = some 0) ∧
    (inp.croissance_monde = none → (mk_manual_record inp).croissance_monde = some 0) ∧
    (inp.taille_marche = none → (mk_manual_record inp).taille_marche = some 0) ∧
    (mk_manual_record inp).croissance_maroc.isSome = true ∧
    (mk_manual_record inp).acr.isSome = true ∧
    (mk_manual_record inp).pci.isSome = true ∧
    (mk_manual_record inp).croissance_monde.isSome = true ∧
    (mk_manual_record inp).taille_marche.isSome = true ∧
    (mk_manual_record inp).alignement = some inp.alignement ∧
    (manual_submit s inp).selected_product_name = some inp.nom ∧
    (manual_submit s inp).strategic_alignment = some inp.alignement ∧
    (manual_submit s inp).show_manual_form = false := by
  refine ⟨?_, ?_, ?_, ?_, ?_, ?_, rfl, rfl, rfl, rfl, rfl, rfl, ?_, ?_, ?_⟩
  · rw [manual_submit_records s fr inp hpage hdf]
    simp
  · intro h; simp [mk_manual_record, h]
  · intro h; simp [mk_manual_record, h]
  · intro h; simp [mk_manual_record, h]
  · intro h; simp [mk_manual_record, h]
  · intro h; simp [mk_manual_record, h]
  · simp [manual_submit, hpage]
  · simp [manual_submit, hpage]
  · simp [manual_submit, hpage]

/-- C9 witness: submitting 'Widget X' with every numeric field untouched on
the concrete dashboard session. -/
theorem C9_witness :
    s_dash0.page = "dashboard" ∧
    s_dash0.df_opportunities = some frame_dash0 ∧
    ((manual_submit s_dash0 inp0).df_opportunities.getD empty_frame).records[0]? =
      some (mk_manual_record inp0) ∧
    (manual_submit s_dash0 inp0).selected_product_name = some "Widget X" ∧
    (manual_submit s_dash0 inp0).strategic_alignment = some 1 ∧
    (manual_submit s_dash0 inp0).show_manual_form = false := by
  have h := C9_manual_merge s_dash0 frame_dash0 inp0 rfl rfl
  exact ⟨rfl, rfl, h.1, h.2.2.2.2.2.2.2.2.2.2.2.2.1,
    h.2.2.2.2.2.2.2.2.2.2.2.2.2.1, h.2.2.2.2.2.2.2.2.2.2.2.2.2.2⟩

/-- C1 counterexample: the imported row had an empty PCI cell before the
manual-entry merge; after the merge the same row (now at position 1) has
PCI = 0 — the merge's fillna(0) rewrites previously imported records, so
absence is not preserved for them. -/
theorem C1_counterexample :
    rec_missing_pci.pci = none ∧
    ((manual_submit s_dash0 inp0).df_opportunities.getD empty_frame).records[1]? =
      some (fillna0 rec_missing_pci) ∧
    (fillna0 rec_missing_pci).pci = some 0 := by
  refine ⟨rfl, ?_, rfl⟩
  rw [manual_submit_records s_dash0 frame_dash0 inp0 rfl rfl]
  rfl

/-- C1 amended: after a manual-entry merge, every record that existed before
the merge keeps its identifiers and every present indicator value (shifted
one position down), but each indicator field that was absent in it is filled
with 0 by the merge — absence is preserved for no record, because fillna(0)
runs over the whole concatenated dataset, not only the new manual row. -/
theorem C1_merge_fills_all_records (s : SessionState) (fr : Frame)
    (inp : ManualInput) (i : ℕ) (r : Record)
    (hpage : s.page = "dashboard") (hdf : s.df_opportunities = some fr)
    (hr : fr.records[i]? = some r) :
    ((manual_submit s inp).df_opportunities.getD empty_frame).records[i + 1]? =
      some (fillna0 r) ∧
    (fillna0 r).produit = r.produit ∧
    (fillna0 r).code_sh = r.code_sh ∧
    (∀ q, r.croissance_maroc = some q → (fillna0 r).croissance_maroc = some q) ∧
    (∀ q, r.acr = some q → (fillna0 r).acr = some q) ∧
    (∀ q, r.pci = some q → (fillna0 r).pci = some q) ∧
    (∀ q, r.croissance_monde = some q → (fillna0 r).croissance_monde = some q) ∧
    (∀ q, r.taille_marche = some q → (fillna0 r).taille_marche = some q) ∧
    (∀ q, r.alignement = some q → (fillna0 r).alignement = some q) ∧
    (r.croissance_maroc = none → (fillna0 r).croissance_maroc = some 0) ∧
    (r.acr = none → (fillna0 r).acr = some 0) ∧
    (r.pci = none → (fillna0 r).pci = some 0) ∧
    (r.croissance_monde = none → (fillna0 r).croissance_monde = some 0) ∧
    (r.taille_marche = none → (fillna0 r).taille_marche = some 0) ∧
    (r.alignement = none → (fillna0 r).alignement = some 0) := by
  refine ⟨?_, rfl, rfl, ?_, ?_, ?_, ?_, ?_, ?_, ?_, ?_, ?_, ?_, ?_, ?_⟩
  · rw [manual_submit_records s fr inp hpage hdf]
    simp [hr]
  all_goals first
    | (intro q hq; simp [fillna0, hq])
    | (intro h; simp [fillna0, h])

/-- C1 amended witness: the concrete session's imported row, missing PCI,
reappears at position 1 with PCI filled to 0 and its ACR value kept. -/
theorem C1_witness :
    s_dash0.page = "dashboard" ∧
    s_dash0.df_opportunities = some frame_dash0 ∧
    frame_dash0.records[0]? = some rec_missing_pci ∧
    ((manual_submit s_dash0 inp0).df_opportunities.getD empty_frame).records[0 + 1]? =
      some (fillna0 rec_missing_pci) ∧
    (fillna0 rec_missing_pci).acr = some (3/2) ∧
    (fillna0 rec_missing_pci).pci = some 0 := by
  have h := C1_merge_fills_all_records s_dash0 frame_dash0 inp0 0 rec_missing_pci
    rfl rfl rfl
  exact ⟨rfl, rfl, rfl, h.1, h.2.2.2.2.1 (3/2) rfl, h.2.2.2.2.2.2.2.2.2.2.2.1 rfl⟩

theorem train_and_load_page (env : LoadEnv) (s : SessionState) :
    (train_and_load env s).1.page = s.page := by
  rcases env with ⟨mf, sf, pf⟩
  cases mf <;> cases sf <;> cases pf <;>
    simp only [train_and_load] <;> first | rfl | (split <;> rfl)

theorem train_and_load_success_some (env : LoadEnv) (s : SessionState)
    (h : (train_and_load env s).2 = true) :
    (train_and_load env s).1.model.isSome = true ∧
    (train_and_load env s).1.df_opportunities.isSome = true := by
  rcases env with ⟨mf, sf, pf⟩
  cases mf with
  | none => simp [train_and_load] at h
  | some m =>
    cases sf with
    | none => simp [train_and_load] at h
    | some sc =>
      cases pf with
      | none => simp [train_and_load] at h
      | some fr => simp only [train_and_load] ; split <;> simp

theorem step_preserves_inv (s : SessionState) (e : Event)
    (ih : s.page = "dashboard" →
      s.model.isSome = true ∧ s.df_opportunities.isSome = true) :
    (step s e).page = "dashboard" →
      (step s e).model.isSome = true ∧
      (step s e).df_opportunities.isSome = true := by
  cases e with
  | configSubmit ev =>
    by_cases hp : s.page = "config"
    · simp only [step, hp, if_true]
      unfold config_submit
      by_cases hb : (ev.train_file && ev.predict_file) = true
      · rw [if_pos hb]
        by_cases hs : (train_and_load ev.env s).2 = true
        · rw [if_pos hs]
          intro _
          exact train_and_load_success_some ev.env s hs
        · rw [if_neg hs]
          intro hdash
          rw [train_and_load_page ev.env s, hp] at hdash
          exact absurd hdash (by decide)
      · rw [if_neg hb]
        exact ih
    · simp only [step, hp, if_false]
      exact ih
  | resetSession =>
    by_cases hp : s.page = "dashboard"
    · simp only [step, hp, if_true]
      intro hdash
      exact absurd hdash (by decide)
    · simp only [step, hp, if_false]
      exact fun h => h.elim
  | toggleManualForm =>
    by_cases hp : s.page = "dashboard"
    · simp only [step, hp, if_true]
      exact fun _ => ih hp
    · simp only [step, hp, if_false]
      exact fun h => h.elim
  | manualSubmit inp =>
    simp only [step]
    unfold manual_submit
    by_cases hp : s.page = "dashboard"
    · rw [if_pos hp]
      intro _
      refine ⟨(ih hp).1, ?_⟩
      have h2 := (ih hp).2
      rcases hdf : s.df_opportunities with _ | fr
      · rw [hdf] at h2
        simp at h2
      · simp [hdf]
    · rw [if_neg hp]
      exact ih
  | selectProduct name =>
    by_cases hp : s.page = "dashboard"
    · simp only [step, hp, if_true]
      exact fun _ => ih hp
    · simp only [step, hp, if_false]
      exact fun h => h.elim
  | setAlign yes =>
    by_cases hp : s.page = "dashboard"
    · simp only [step, hp, if_true]
      exact fun _ => ih hp
    · simp only [step, hp, if_false]
      exact fun h => h.elim
  | missingSubmit vals =>
    simp only [step]
    unfold missing_submit
    rcases hdf : s.df_opportunities with _ | fr <;>
      rcases hsel : s.selected_product_name with _ | name <;>
      simp only []
    · exact ih
    · exact ih
    · exact ih
    · intro hdash
      refine ⟨(ih hdash).1, rfl⟩
  | addReport =>
    simp only [step]
    unfold add_report
    repeat' split
    all_goals exact ih

/-- C2: in every reachable session state, phase 'dashboard' implies the
model and the opportunities dataset are both non-null: the phase is set to
'dashboard' only after a load that has assigned both. -/
theorem C2_dashboard_nonnull (s : SessionState) (h : Reachable s)
    (hp : s.page = "dashboard") :
    s.model.isSome = true ∧ s.df_opportunities.isSome = true := by
  revert hp
  induction h with
  | init => intro hp; simp [init_state] at hp
  | step e hR ih => exact step_preserves_inv _ e ih

/-- C2 witness: the state reached by one successful configuration submit is
on the dashboard page with model and dataset loaded. -/
theorem C2_witness :
    (step init_state (Event.configSubmit ev_ok)).page = "dashboard" ∧
    (step init_state (Event.configSubmit ev_ok)).model.isSome = true ∧
    (step init_state (Event.configSubmit ev_ok)).df_opportunities.isSome = true := by
  have hr : Reachable (step init_state (Event.configSubmit ev_ok)) :=
    Reachable.step (Event.configSubmit ev_ok) Reachable.init
  have hp : (step init_state (Event.configSubmit ev_ok)).page = "dashboard" := by
    simp [step, init_state, config_submit, ev_ok, env_ok, train_and_load,
      frame_ok, manual_columns, FEATURES_NAMES]
  exact ⟨hp, C2_dashboard_nonnull _ hr hp⟩

/-- C3: when the configuration submit fails because the prediction source
lacks 'Produit' or 'CODE SH', the model, scaler and dataset fields have
already been overwritten with the newly loaded values when the failure is
reported, even though the phase remains 'config': the failed transition is
not atomic. -/
theorem C3_failed_validation_overwrites (s : SessionState) (m : Model)
    (sc : Scaler) (fr : Frame) (hs : s.page = "config")
    (hcols : ¬("Produit" ∈ fr.columns ∧ "CODE SH" ∈ fr.columns)) :
    (step s (Event.configSubmit (config_event_all_loaded m sc fr))).page = "config" ∧
    (step s (Event.configSubmit (config_event_all_loaded m sc fr))).model = some m ∧
    (step s (Event.configSubmit (config_event_all_loaded m sc fr))).scaler = some sc ∧
    (step s (Event.configSubmit (config_event_all_loaded m sc fr))).df_opportunities =
      some fr := by
  simp [step, hs, config_event_all_loaded, config_submit, train_and_load, hcols]

/-- C3 witness: the concrete prediction file lacking 'CODE SH', submitted
from the initial state. -/
theorem C3_witness :
    init_state.page = "config" ∧
    ¬("Produit" ∈ frame_no_sh.columns ∧ "CODE SH" ∈ frame_no_sh.columns) ∧
    (step init_state (Event.configSubmit
      (config_event_all_loaded model0 scaler0 frame_no_sh))).page = "config" ∧
    (step init_state (Event.configSubmit
      (config_event_all_loaded model0 scaler0 frame_no_sh))).df_opportunities =
      some frame_no_sh := by
  have h := C3_failed_validation_overwrites init_state model0 scaler0 frame_no_sh
    rfl (by decide)
  exact ⟨rfl, by decide, h.1, h.2.2.2⟩

/-- C4: from the config phase, the phase becomes 'dashboard' exactly when
both files are present and the load reports success; the load reports
failure whenever the model artifact is absent, the prediction source fails
to parse, or it lacks 'Produit' or 'CODE SH'; and on failure the phase
remains 'config'. -/
theorem C4_phase_changes_only_on_success (s : SessionState) (ev : ConfigEvent)
    (hs : s.page = "config") :
    ((step s (Event.configSubmit ev)).page = "dashboard" ↔
      ev.train_file = true ∧ ev.predict_file = true ∧
        (train_and_load ev.env s).2 = true) ∧
    (ev.env.modelFile = none → (train_and_load ev.env s).2 = false) ∧
    (ev.env.predictFile = none → (train_and_load ev.env s).2 = false) ∧
    (∀ fr, ev.env.predictFile = some fr → "Produit" ∉ fr.columns →
      (train_and_load ev.env s).2 = false) ∧
    (∀ fr, ev.env.predictFile = some fr → "CODE SH" ∉ fr.columns →
      (train_and_load ev.env s).2 = false) ∧
    ((train_and_load ev.env s).2 = false →
      (step s (Event.configSubmit ev)).page = "config") := by
  refine ⟨?_, ?_, ?_, ?_, ?_, ?_⟩
  · simp only [step, hs, if_true]
    unfold config_submit
    by_cases hb : (ev.train_file && ev.predict_file) = true
    · rw [if_pos hb]
      rcases Bool.and_eq_true_iff.mp hb with ⟨hb1, hb2⟩
      by_cases hsu : (train_and_load ev.env s).2 = true
      · rw [if_pos hsu]
        simp [hb1, hb2, hsu]
      · rw [if_neg hsu]
        rw [train_and_load_page ev.env s, hs]
        simp [hsu]
    · rw [if_neg hb]
      rw [hs]
      constructor
      · intro hc; exact absurd hc (by decide)
      · rintro ⟨hb1, hb2, _⟩
        exact absurd (by simp [hb1, hb2]) hb
  · intro h
    simp [train_and_load, h]
  · intro h
    cases hmf : ev.env.modelFile with
    | none => simp [train_and_load, hmf]
    | some m =>
      cases hsf : ev.env.scalerFile with
      | none => simp [train_and_load, hmf, hsf]
      | some sc => simp [train_and_load, hmf, hsf, h]
  · intro fr hpf hmem
    cases hmf : ev.env.modelFile with
    | none => simp [train_and_load, hmf]
    | some m =>
      cases hsf : ev.env.scalerFile with
      | none => simp [train_and_load, hmf, hsf]
      | some sc => simp [train_and_load, hmf, hsf, hpf, hmem]
  · intro fr hpf hmem
    cases hmf : ev.env.modelFile with
    | none => simp [train_and_load, hmf]
    | some m =>
      cases hsf : ev.env.scalerFile with
      | none => simp [train_and_load, hmf, hsf]
      | some sc => simp [train_and_load, hmf, hsf, hpf, hmem]
  · intro hf
    simp only [step, hs, if_true]
    unfold config_submit
    by_cases hb : (ev.train_file && ev.predict_file) = true
    · rw [if_pos hb, if_neg (by rw [hf]; exact Bool.false_ne_true)]
      rw [train_and_load_page ev.env s, hs]
    · rw [if_neg hb]
      exact hs

/-- C4 witness: submitting the prediction file that lacks 'CODE SH' from the
initial state leaves the phase at 'config'. -/
theorem C4_witness :
    init_state.page = "config" ∧
    (step init_state (Event.configSubmit ev_no_sh)).page = "config" := by
  have h := C4_phase_changes_only_on_success init_state ev_no_sh rfl
  exact ⟨rfl, h.2.2.2.2.2 (h.2.2.2.2.1 frame_no_sh rfl (by decide))⟩

theorem set_field_produit (r : Record) (f : String) (v : ℚ) :
    (set_field r f v).produit = r.produit := by
  unfold set_field
  repeat' split
  all_goals rfl

theorem apply_updates_produit (vals : List (String × ℚ)) (r : Record) :
    (apply_updates r vals).produit = r.produit := by
  induction vals generalizing r with
  | nil => rfl
  | cons hd tl ih =>
    have h : apply_updates r (hd :: tl) = apply_updates (set_field r hd.1 hd.2) tl := rfl
    rw [h, ih, set_field_produit]

theorem find?_update_matching (l : List Record) (name : String)
    (vals : List (String × ℚ)) :
    (update_matching l name vals).find? (fun r => r.produit == name) =
      (l.find? (fun r => r.produit == name)).map (fun r => apply_updates r vals) := by
  induction l with
  | nil => rfl
  | cons r t ih =>
    by_cases h : r.produit = name
    · have hb : (r.produit == name) = true := by simp [h]
      have hb2 : ((apply_updates r vals).produit == name) = true := by
        rw [apply_updates_produit]
        exact hb
      simp only [update_matching, List.map_cons]
      rw [if_pos hb]
      rw [List.find?_cons_of_pos (p := fun x : Record => x.produit == name) _ hb2,
          List.find?_cons_of_pos (p := fun x : Record => x.produit == name) _ hb,
          Option.map_some']
    · have hb : ¬((r.produit == name) = true) := by simp [h]
      simp only [update_matching, List.map_cons]
      rw [if_neg hb]
      rw [List.find?_cons_of_neg (p := fun x : Record => x.produit == name) _ hb,
          List.find?_cons_of_neg (p := fun x : Record => x.produit == name) _ hb]
      exact ih

theorem update_matching_getElem_match (l : List Record) (name : String)
    (vals : List (String × ℚ)) (i : ℕ) (r : Record)
    (hi : l[i]? = some r) (hname : r.produit = name) :
    (update_matching l name vals)[i]? = some (apply_updates r vals) := by
  simp [update_matching, List.getElem?_map, hi, hname]

theorem update_matching_getElem_nomatch (l : List Record) (name : String)
    (vals : List (String × ℚ)) (i : ℕ) (r : Record)
    (hi : l[i]? = some r) (hname : r.produit ≠ name) :
    (update_matching l name vals)[i]? = some r := by
  simp [update_matching, List.getElem?_map, hi, hname]

theorem set_field_get_self (r : Record) (f : String) (v : ℚ)
    (hf : f ∈ FEATURES_NAMES) : (set_field r f v).get f = some v := by
  simp only [FEATURES_NAMES, List.mem_cons, List.not_mem_nil, or_false] at hf
  rcases hf with rfl | rfl | rfl | rfl | rfl | rfl <;>
    simp [set_field, Record.get]

theorem set_field_croissance_maroc (r : Record) (g : String) (w : ℚ) :
    (set_field r g w).croissance_maroc =
      if g = "Croissance Maroc (% p.a.)" then some w
      else r.croissance_maroc := by
  unfold set_field
  split_ifs <;> first | rfl | simp_all

theorem set_field_acr (r : Record) (g : String) (w : ℚ) :
    (set_field r g w).acr = if g = "ACR" then some w else r.acr := by
  unfold set_field
  split_ifs <;> first | rfl | simp_all

theorem set_field_pci (r : Record) (g : String) (w : ℚ) :
    (set_field r g w).pci = if g = "PCI" then some w else r.pci := by
  unfold set_field
  split_ifs <;> first | rfl | simp_all

theorem set_field_croissance_monde (r : Record) (g : String) (w : ℚ) :
    (set_field r g w).croissance_monde =
      if g = "Croissance Monde (% p.a.)" then some w
      else r.croissance_monde := by
  unfold set_field
  split_ifs <;> first | rfl | simp_all

theorem set_field_taille_marche (r : Record) (g : String) (w : ℚ) :
    (set_field r g w).taille_marche =
      if g = "Taille Marche (millier USD)" then some w
      else r.taille_marche := by
  unfold set_field
  split_ifs <;> first | rfl | simp_all

theorem set_field_alignement (r : Record) (g : String) (w : ℚ) :
    (set_field r g w).alignement =
      if g = "Alignement stratégique" then some w else r.alignement := by
  unfold set_field
  split_ifs <;> first | rfl | simp_all

theorem set_field_get_other (r : Record) (g f : String) (w : ℚ)
    (hfg : f ≠ g) : (set_field r g w).get f = r.get f := by
  unfold Record.get
  split_ifs with h1 h2 h3 h4 h5 h6
  · rw [set_field_croissance_maroc, if_neg (fun hg => hfg (h1.trans hg.symm))]
  · rw [set_field_acr, if_neg (fun hg => hfg (h2.trans hg.symm))]
  · rw [set_field_pci, if_neg (fun hg => hfg (h3.trans hg.symm))]
  · rw [set_field_croissance_monde, if_neg (fun hg => hfg (h4.trans hg.symm))]
  · rw [set_field_taille_marche, if_neg (fun hg => hfg (h5.trans hg.symm))]
  · rw [set_field_alignement, if_neg (fun hg => hfg (h6.trans hg.symm))]
  · rfl

theorem apply_updates_get_not_mem (vals : List (String × ℚ)) (r : Record)
    (f : String) : f ∉ vals.map Prod.fst →
      (apply_updates r vals).get f = r.get f := by
  induction vals generalizing r with
  | nil => intro _; rfl
  | cons hd tl ih =>
    intro hf
    have h1 : f ≠ hd.1 := by
      intro h
      exact hf (by simp [h])
    have h2 : f ∉ tl.map Prod.fst := by
      intro h
      exact hf (by simp [h])
    rw [show apply_updates r (hd :: tl) =
          apply_updates (set_field r hd.1 hd.2) tl from rfl]
    rw [ih _ h2, set_field_get_other _ _ _ _ h1]

theorem apply_updates_get_mem (vals : List (String × ℚ)) (r : Record)
    (f : String) (v : ℚ) :
    (vals.map Prod.fst).Nodup → (f, v) ∈ vals → f ∈ FEATURES_NAMES →
      (apply_updates r vals).get f = some v := by
  induction vals generalizing r with
  | nil =>
    intro _ h _
    simp at h
  | cons hd tl ih =>
    intro hnd hmem hf
    have hnd2 : hd.1 ∉ tl.map Prod.fst ∧ (tl.map Prod.fst).Nodup := by
      rw [List.map_cons, List.nodup_cons] at hnd
      exact hnd
    rw [show apply_updates r (hd :: tl) =
          apply_updates (set_field r hd.1 hd.2) tl from rfl]
    rcases List.mem_cons.mp hmem with heq | htl
    · have hd1 : hd.1 = f := by rw [← heq]
      have hd2 : hd.2 = v := by rw [← heq]
      have hnot : f ∉ tl.map Prod.fst := hd1 ▸ hnd2.1
      rw [apply_updates_get_not_mem tl _ f hnot, hd1, hd2,
        set_field_get_self _ _ _ hf]
    · exact ih _ hnd2.2 htl hf

/-- C8: for every submission of the missing-data form — an arbitrary list of
supplied (feature, value) pairs with distinct feature names — the values are
written into the stored dataset record itself: the session dataset now holds
the updated rows, the retried lookup of the selected product returns the
filled record, every supplied field of that record now carries its supplied
value, every field not supplied is unchanged, and in particular a record
whose other four indicators are present, after PCI = q is supplied,
assembles successfully with q at the PCI position of the vector. -/
theorem C8_missing_fill_persists (s : SessionState) (fr : Frame) (name : String)
    (r : Record) (vals : List (String × ℚ))
    (hdf : s.df_opportunities = some fr)
    (hsel : s.selected_product_name = some name)
    (hfind : selected_row fr.records name = some r) :
    (missing_submit s vals).df_opportunities =
      some ({ fr with records := update_matching fr.records name vals }) ∧
    dashboard_selected (missing_submit s vals) =
      some (apply_updates r vals) ∧
    (∀ f v, (vals.map Prod.fst).Nodup → (f, v) ∈ vals → f ∈ FEATURES_NAMES →
      (apply_updates r vals).get f = some v) ∧
    (∀ f, f ∉ vals.map Prod.fst →
      (apply_updates r vals).get f = r.get f) ∧
    (∀ a q c1 c2 c4 c5 : ℚ, r.croissance_maroc = some c1 → r.acr = some c2 →
      r.croissance_monde = some c4 → r.taille_marche = some c5 →
      assemble (apply_updates r [("PCI", q)]) a =
        Except.ok [c1, c2, q, c4, c5, a]) := by
  refine ⟨?_, ?_, ?_, ?_, ?_⟩
  · simp [missing_submit, hdf, hsel]
  · simp only [missing_submit, hdf, hsel, dashboard_selected, selected_row]
    rw [show (List.find? (fun r => r.produit == name)
        (update_matching fr.records name vals)) = _ from
      find?_update_matching fr.records name vals]
    rw [show (List.find? (fun r => r.produit == name) fr.records) = some r from hfind]
    rw [Option.map_some']
  · exact fun f v hnd hmem hf => apply_updates_get_mem vals r f v hnd hmem hf
  · exact fun f hf => apply_updates_get_not_mem vals r f hf
  · intro a q c1 c2 c4 c5 h1 h2 h4 h5
    have happ : apply_updates r [("PCI", q)] = { r with pci := some q } := by
      simp [apply_updates, set_field]
    rw [happ]
    exact assemble_ok_of_present _ a c1 c2 q c4 c5 h1 h2 rfl h4 h5

/-- C8 witness: the concrete session whose imported 'Tomates' row misses
PCI; supplying PCI = 1/2 mutates the stored row, the retried lookup returns
it with PCI = 1/2 and with its other cells unchanged, and assembly succeeds
with 1/2 in the PCI position. -/
theorem C8_witness :
    s_dash0.df_opportunities = some frame_dash0 ∧
    s_dash0.selected_product_name = some "Tomates" ∧
    selected_row frame_dash0.records "Tomates" = some rec_missing_pci ∧
    dashboard_selected (missing_submit s_dash0 [("PCI", 1/2)]) =
      some (apply_updates rec_missing_pci [("PCI", 1/2)]) ∧
    (apply_updates rec_missing_pci [("PCI", 1/2)]).get "PCI" = some (1/2) ∧
    (apply_updates rec_missing_pci [("PCI", 1/2)]).get "ACR" =
      rec_missing_pci.get "ACR" ∧
    assemble (apply_updates rec_missing_pci [("PCI", 1/2)]) 1 =
      Except.ok [2, 3/2, 1/2, 1, 500, 1] := by
  have h := C8_missing_fill_persists s_dash0 frame_dash0 "Tomates"
    rec_missing_pci [("PCI", 1/2)] rfl rfl rfl
  exact ⟨rfl, rfl, rfl, h.2.1,
    h.2.2.1 "PCI" (1/2) (by simp) (by simp)
      (by simp [FEATURES_NAMES]),
    h.2.2.2.1 "ACR" (by simp),
    h.2.2.2.2 1 (1/2) 2 (3/2) 1 500 rfl rfl rfl rfl⟩

/-- C10: when several records bear the selected product name, a missing-data
submission writes the supplied values into every matching row of the stored
dataset, while the dashboard body reads only the first matching row. -/
theorem C10_update_all_read_first (s : SessionState) (fr : Frame)
    (name : String) (vals : List (String × ℚ))
    (hdf : s.df_opportunities = some fr)
    (hsel : s.selected_product_name = some name) :
    ((missing_submit s vals).df_opportunities.getD empty_frame).records =
      update_matching fr.records name vals ∧
    (∀ (i : ℕ) (r : Record), fr.records[i]? = some r → r.produit = name →
      (update_matching fr.records name vals)[i]? = some (apply_updates r vals)) ∧
    (∀ (i : ℕ) (r : Record), fr.records[i]? = some r → r.produit ≠ name →
      (update_matching fr.records name vals)[i]? = some r) ∧
    dashboard_selected (missing_submit s vals) =
      (fr.records.find? (fun r => r.produit == name)).map
        (fun r => apply_updates r vals) := by
  refine ⟨?_, ?_, ?_, ?_⟩
  · simp [missing_submit, hdf, hsel, empty_frame]
  · exact fun i r hi hn => update_matching_getElem_match fr.records name vals i r hi hn
  · exact fun i r hi hn => update_matching_getElem_nomatch fr.records name vals i r hi hn
  · simp only [missing_submit, hdf, hsel, dashboard_selected, selected_row]
    exact find?_update_matching fr.records name vals

/-- C10 witness: two rows both named 'Tomates'; the submission updates both
stored rows, and the dashboard reads the first one. -/
theorem C10_witness :
    s_dash_dup.df_opportunities = some frame_dash_dup ∧
    s_dash_dup.selected_product_name = some "Tomates" ∧
    frame_dash_dup.records[0]? = some rec_missing_pci ∧
    frame_dash_dup.records[1]? = some rec_missing_pci2 ∧
    (update_matching frame_dash_dup.records "Tomates" [("PCI", 1/2)])[0]? =
      some (apply_updates rec_missing_pci [("PCI", 1/2)]) ∧
    (update_matching frame_dash_dup.records "Tomates" [("PCI", 1/2)])[1]? =
      some (apply_updates rec_missing_pci2 [("PCI", 1/2)]) ∧
    dashboard_selected (missing_submit s_dash_dup [("PCI", 1/2)]) =
      some (apply_updates rec_missing_pci [("PCI", 1/2)]) := by
  have h := C10_update_all_read_first s_dash_dup frame_dash_dup "Tomates"
    [("PCI", 1/2)] rfl rfl
  refine ⟨rfl, rfl, rfl, rfl,
    h.2.1 0 rec_missing_pci rfl rfl,
    h.2.1 1 rec_missing_pci2 rfl rfl, ?_⟩
  rw [h.2.2.2]
  rfl

end ExportScore
